import Mathlib

/-!
Shallow embedding of the service-lifecycle manager in `src/system_v.py`
(`logger` / `service` classes).  The operating-system interactions are
modelled by an explicit `World` record: the PID-file contents, whether
reading or removing the PID file raises, the result of the signal-0
liveness probe, whether `os.fork` succeeds, the sequence of `select`
results seen by the launcher, and the outcome of each `os.kill` call
made by `stop`.  Each control verb is a pure function from a `World` to
a new `World`, a trace of observable events (log lines, PID-file
mutations, signal sends) and an exit code, mirroring the Python source
line by line.
-/

namespace SystemV

/-- Debian exit codes, from the module-level constants of `system_v.py`. -/
def exit_success : Nat := 0

/-- Exit code returned when the requested state already held. -/
def exit_no_action : Nat := 1

/-- Exit code returned when a state change was attempted and failed. -/
def exit_failure : Nat := 2

/-- Debian status code: the service is running. -/
def status_running : Nat := 0

/-- Debian status code: stopped but the PID file exists (unparsable content). -/
def status_stopped_with_pidfile : Nat := 1

/-- Debian status code: stopped but a lock file exists (never produced here). -/
def status_stopped_with_lock : Nat := 2

/-- Debian status code: the service is stopped. -/
def status_stopped : Nat := 3

/-- Debian status code: the state could not be determined (I/O error). -/
def status_unknown : Nat := 4

/-- Action codes for `service.get_pid`, from the module-level constants. -/
inductive Assertion
  | assert_running
  | assert_stopped
  | assert_none
deriving DecidableEq

/-- The two signals `service.stop` sends: SIGTERM during the retry loop,
SIGKILL afterwards. -/
inductive Sig
  | sigterm
  | sigkill
deriving DecidableEq

/-- Observable events of an execution: log lines emitted through the
`logger` class or the daemon-side pipes, PID-file mutations, and signal
sends.  The order of events in a trace is the order of the corresponding
statements in the Python source. -/
inductive Ev
  | logAction
  | logStatus (ok : Bool)
  | logFailure
  | logWarning
  | clearPid
  | kill (pid : Int) (sig : Sig)
deriving DecidableEq

/-- Outcome of one `os.kill(pid, sig)` call in `service.stop`:
delivered normally, raised `OSError` whose text contains
`No such process`, or raised any other `OSError`. -/
inductive KillRes
  | delivered
  | noSuchProcess
  | otherError
deriving DecidableEq

/-- One result of the `select` call in `service.monitor_daemon`:
an exceptional condition on some pipe (`x` nonempty), the status pipe
readable (carrying the status byte `b` and `nFail`/`nWarn` buffered
message lines), or a wakeup in which only the message pipes are
readable, which the code answers with `time.sleep(0.01)` and another
loop iteration. -/
inductive SelEvt
  | pipeErr
  | statusReady (b : Nat) (nFail : Nat) (nWarn : Nat)
  | wake
deriving DecidableEq

/-- The state of the operating system as seen by one `service` object:
the PID file (`none` = absent), whether opening/reading it raises
`IOError`, whether `os.remove` on it raises `OSError`, the result of the
`os.kill(pid, 0)` liveness probe for each pid, whether the first
`os.fork` succeeds, the sequence of `select` results the launcher will
observe, and the result of the i-th `os.kill` call of a `stop`. -/
structure World where
  pidfile : Option String
  readErr : Bool
  removeErr : Bool
  alive : Int → Bool
  forkOk : Bool
  selTrace : List SelEvt
  kills : Nat → KillRes

/-- Python whitespace characters removed by `str.strip()` (ASCII range). -/
def isPySpace (c : Char) : Bool :=
  c == ' ' || c == '\t' || c == '\n' || c == '\r' || c == '\x0b' || c == '\x0c'

/-- Drop leading Python whitespace. -/
def stripLeft : List Char → List Char
  | [] => []
  | c :: rest => if isPySpace c then stripLeft rest else c :: rest

/-- Python `str.strip()` on a character list: drop whitespace at both ends. -/
def pyStrip (cs : List Char) : List Char :=
  ((stripLeft cs).reverse |> stripLeft).reverse

/-- Digit tail of a Python integer literal: digits optionally separated
by single underscores, each underscore surrounded by digits.  `acc` is
the value of the digits already consumed. -/
def pyDigits : List Char → Nat → Option Nat
  | [], acc => some acc
  | '_' :: c :: rest, acc =>
      if c.isDigit then pyDigits rest (10 * acc + (c.toNat - 48)) else none
  | ['_'], _ => none
  | c :: rest, acc =>
      if c.isDigit then pyDigits rest (10 * acc + (c.toNat - 48)) else none

/-- Nonempty digit string: the first character must be a digit. -/
def pyDigitsNE : List Char → Option Nat
  | [] => none
  | c :: rest => if c.isDigit then pyDigits rest (c.toNat - 48) else none

/-- Python `int(s.strip())` as used in `service.get_pid`: strip
whitespace, accept an optional sign followed by a nonempty digit string
(with Python underscore grouping); `none` models `ValueError`.
Non-ASCII digits are not modelled. -/
def pyInt (s : String) : Option Int :=
  match pyStrip s.toList with
  | '+' :: rest => (pyDigitsNE rest).map (fun n => (n : Int))
  | '-' :: rest => (pyDigitsNE rest).map (fun n => -(n : Int))
  | rest => (pyDigitsNE rest).map (fun n => (n : Int))

/-- Model of `service.remove_pidfile`: if the PID file exists, try to delete it;
a failed delete only logs a warning and leaves the file in place. -/
def remove_pidfile (w : World) : World × List Ev :=
  match w.pidfile with
  | none => (w, [])
  | some _ =>
      if w.removeErr then (w, [Ev.logWarning])
      else ({ w with pidfile := none }, [Ev.clearPid])

/-- The `if assertion == assert_running: self.log.log_status(False)`
lines that precede each non-running outcome of `service.get_pid`. -/
def assertRunningEvs (a : Assertion) : List Ev :=
  match a with
  | Assertion.assert_running => [Ev.logStatus false]
  | _ => []

/-- Result of `service.get_pid`: the updated world, the emitted events,
and the `(pid, status)` named tuple the Python function returns. -/
structure PidResult where
  world : World
  events : List Ev
  pid : Int
  stat : Nat

/-- Model of `service.get_pid`: read the PID file.  Absent file: `(-1, stopped)`.
`IOError` while reading: `(-1, unknown)`, file untouched.  Unparsable
content (`ValueError` from `int`): warn, remove the file,
`(-1, stopped-with-pidfile)`.  Parsable pid whose liveness probe fails:
remove the file, `(-1, stopped)`.  Otherwise `(pid, running)`, with a
failed-status line when `assert_stopped` was requested. -/
def get_pid (w : World) (a : Assertion) : PidResult :=
  match w.pidfile with
  | some content =>
      if w.readErr then
        { world := w, events := assertRunningEvs a ++ [Ev.logWarning],
          pid := -1, stat := status_unknown }
      else
        match pyInt content with
        | none =>
            let r := remove_pidfile w
            { world := r.1, events := assertRunningEvs a ++ [Ev.logWarning] ++ r.2,
              pid := -1, stat := status_stopped_with_pidfile }
        | some pid =>
            if w.alive pid then
              { world := w,
                events := match a with
                  | Assertion.assert_stopped => [Ev.logStatus false]
                  | _ => [],
                pid := pid, stat := status_running }
            else
              let r := remove_pidfile w
              { world := r.1, events := assertRunningEvs a ++ r.2,
                pid := -1, stat := status_stopped }
  | none =>
      { world := w, events := assertRunningEvs a, pid := -1, stat := status_stopped }

/-- Model of `service.monitor_daemon`, as a function of the sequence of `select`
results.  `none` means the function has not returned after consuming
the whole sequence: the `select` call carries no timeout argument, so a
launcher whose daemon never writes is permanently blocked.  A pipe
error yields `false`; a status byte `b` logs `[ OK ]` exactly when
`b == exit_success`, logs the buffered failure and warning lines, and
then returns `true` unconditionally (the source's `return True`). -/
def monitor_daemon : List SelEvt → Option (List Ev × Bool)
  | [] => none
  | SelEvt.pipeErr :: _ => some ([Ev.logStatus false, Ev.logFailure], false)
  | SelEvt.statusReady b nFail nWarn :: _ =>
      some (Ev.logStatus (b == exit_success) ::
        (List.replicate nFail Ev.logFailure ++ List.replicate nWarn Ev.logWarning), true)
  | SelEvt.wake :: rest => monitor_daemon rest

/-- Launcher-side view of `service.make_daemon`: create the pipes and
fork.  A failed fork logs a failed status and a failure line and
returns `false`; otherwise the parent branch returns whatever
`monitor_daemon` returns (`none` = still blocked). -/
def make_daemon (w : World) : Option (List Ev × Bool) :=
  if w.forkOk then monitor_daemon w.selTrace
  else some ([Ev.logStatus false, Ev.logFailure], false)

/-- Result of a control verb: updated world, event trace, exit code. -/
structure VerbResult where
  world : World
  events : List Ev
  code : Nat

/-- Model of `service.start`, launcher side.  Log the action line; if `get_pid`
with `assert_stopped` reports running, return `exit_no_action`;
otherwise run `make_daemon` and map its boolean to
`exit_success`/`exit_failure`.  `none` propagates a permanently blocked
`monitor_daemon`. -/
def start (w : World) : Option VerbResult :=
  let g := get_pid w Assertion.assert_stopped
  if g.stat = status_running then
    some { world := g.world, events := Ev.logAction :: g.events, code := exit_no_action }
  else
    match make_daemon g.world with
    | none => none
    | some (t, b) =>
        some { world := g.world, events := Ev.logAction :: g.events ++ t,
               code := if b then exit_success else exit_failure }

/-- The `for _ in range(retry)` SIGTERM loop of `service.stop`, sending
to `pid` with `k i` the outcome of the i-th call.  Returns the kill
events actually attempted and the first exception, if any. -/
def sigtermLoop (k : Nat → KillRes) (pid : Int) (i : Nat) : Nat → List Ev × Option KillRes
  | 0 => ([], none)
  | n + 1 =>
      match k i with
      | KillRes.delivered =>
          let r := sigtermLoop k pid (i + 1) n
          (Ev.kill pid Sig.sigterm :: r.1, r.2)
      | e => ([Ev.kill pid Sig.sigterm], some e)

/-- Outcome of the whole signalling phase of `service.stop`: the kill
events, the value of the `killed` flag when the `try` block is left,
and the exception that escaped it, if any. -/
structure SignalPhase where
  events : List Ev
  killed : Bool
  exc : Option KillRes

/-- The `try` block of `service.stop`: `retry` SIGTERMs, then
`killed = True`, then one SIGKILL.  An exception during the loop leaves
`killed = False`; an exception from the SIGKILL leaves it `True`. -/
def stopSignals (k : Nat → KillRes) (pid : Int) (retry : Nat) : SignalPhase :=
  let r := sigtermLoop k pid 0 retry
  match r.2 with
  | some e => { events := r.1, killed := false, exc := some e }
  | none =>
      match k retry with
      | KillRes.delivered =>
          { events := r.1 ++ [Ev.kill pid Sig.sigkill], killed := true, exc := none }
      | e =>
          { events := r.1 ++ [Ev.kill pid Sig.sigkill], killed := true, exc := some e }

/-- Model of `service.stop`: log the action line; resolve the pid with
`assert_running`; if the status is neither running nor unknown return
`exit_no_action`.  Otherwise run the signalling phase.  An `OSError`
other than `No such process` logs a failed status and a failure line,
removes the PID file and returns `exit_failure`; every other outcome
logs a successful status (plus a SIGKILL warning if the `killed` flag
was set), removes the PID file and returns `exit_success`. -/
def stop (retry : Nat) (w : World) : VerbResult :=
  let g := get_pid w Assertion.assert_running
  if ¬ (g.stat = status_running ∨ g.stat = status_unknown) then
    { world := g.world, events := Ev.logAction :: g.events, code := exit_no_action }
  else
    let p := stopSignals g.world.kills g.pid retry
    match p.exc with
    | some KillRes.otherError =>
        let r := remove_pidfile g.world
        { world := r.1,
          events := Ev.logAction :: g.events ++ p.events ++
            [Ev.logStatus false, Ev.logFailure] ++ r.2,
          code := exit_failure }
    | _ =>
        let r := remove_pidfile g.world
        { world := r.1,
          events := Ev.logAction :: g.events ++ p.events ++ [Ev.logStatus true] ++
            (if p.killed then [Ev.logWarning] else []) ++ r.2,
          code := exit_success }

/-- Model of `service.restart`: `stop`, then `start` only when the stop result is
`exit_success` or `exit_no_action`; otherwise `exit_failure` with no
call to `start`. -/
def restart (retry : Nat) (w : World) : Option VerbResult :=
  if (stop retry w).code = exit_success ∨ (stop retry w).code = exit_no_action then
    (start (stop retry w).world).map (fun r =>
      { world := r.world, events := (stop retry w).events ++ r.events, code := r.code })
  else
    some { world := (stop retry w).world, events := (stop retry w).events,
           code := exit_failure }

/-- Model of `service.try_restart`: restart only if `get_pid` with `assert_none`
reports running; otherwise `exit_no_action`. -/
def try_restart (retry : Nat) (w : World) : Option VerbResult :=
  if (get_pid w Assertion.assert_none).stat ≠ status_running then
    some { world := (get_pid w Assertion.assert_none).world,
           events := (get_pid w Assertion.assert_none).events, code := exit_no_action }
  else
    (restart retry (get_pid w Assertion.assert_none).world).map (fun r =>
      { world := r.world, events := (get_pid w Assertion.assert_none).events ++ r.events,
        code := r.code })

/-- Model of `service.reload`: the body is `pass`, so nothing happens and the
Python function returns `None` (modelled as `none`), not an exit code. -/
def reload (w : World) : World × List Ev × Option Nat := (w, [], none)

/-- Model of `service.force_reload`: `return self.restart()`. -/
def force_reload (retry : Nat) (w : World) : Option VerbResult := restart retry w

/-- Result of `service.status`: world, events and the status code. -/
structure StatusResult where
  world : World
  events : List Ev
  stat : Nat

/-- Model of `service.status`: resolve the pid with `assert_none` and return the
status code (a Debian status code in 0..4, not an exit code). -/
def status (w : World) : StatusResult :=
  let g := get_pid w Assertion.assert_none
  { world := g.world, events := g.events, stat := g.stat }

/-- True when no `clearPid` event occurs strictly before the first
`logStatus` event of the trace (so the first of the two kinds to occur,
if any, is a status line). -/
def statusPrecedesClear : List Ev → Bool
  | [] => true
  | Ev.clearPid :: _ => false
  | Ev.logStatus _ :: _ => true
  | _ :: t => statusPrecedesClear t

/-- The exit-code range the spec assigns to every verb. -/
def validExit (c : Nat) : Prop :=
  c = exit_success ∨ c = exit_no_action ∨ c = exit_failure

/-- Predicate `validExit` lifted to verbs that may be permanently blocked. -/
def validExitOpt : Option VerbResult → Prop
  | none => True
  | some r => validExit r.code

/-- The five Debian status codes `get_pid` can produce. -/
def validStatus (c : Nat) : Prop :=
  c = status_running ∨ c = status_stopped_with_pidfile ∨ c = status_stopped_with_lock ∨
    c = status_stopped ∨ c = status_unknown

/-- World for C1: no PID file, fork succeeds, and the daemon reports a
failure outcome (status byte 1) on the channel. -/
def c1World : World :=
  { pidfile := none, readErr := false, removeErr := false,
    alive := fun _ => false, forkOk := true, selTrace := [SelEvt.statusReady 1 0 0],
    kills := fun _ => KillRes.delivered }

/-- World for C2: no PID file, fork succeeds, and the daemon never
writes anything on any pipe. -/
def c2World : World :=
  { pidfile := none, readErr := false, removeErr := false,
    alive := fun _ => false, forkOk := true, selTrace := [],
    kills := fun _ => KillRes.delivered }

/-- World for C3: a running service whose signal deliveries raise an
`OSError` other than `No such process`. -/
def c3World : World :=
  { pidfile := some "42", readErr := false, removeErr := false,
    alive := fun _ => true, forkOk := true, selTrace := [],
    kills := fun _ => KillRes.otherError }

/-- World for C4: a stopped service whose next start attempt succeeds. -/
def c4World : World :=
  { pidfile := none, readErr := false, removeErr := false,
    alive := fun _ => false, forkOk := true, selTrace := [SelEvt.statusReady 0 0 0],
    kills := fun _ => KillRes.delivered }

/-- World for C5: a stopped service with no PID file. -/
def c5World : World :=
  { pidfile := none, readErr := false, removeErr := false,
    alive := fun _ => false, forkOk := true, selTrace := [],
    kills := fun _ => KillRes.delivered }

/-- World for C6's counterexample: the PID file holds `-1`, which is not
a positive integer yet parses under Python `int`, and the liveness probe
`os.kill(-1, 0)` succeeds (as it does on a real system, since pid -1
addresses every process the caller may signal). -/
def c6World : World :=
  { pidfile := some "-1", readErr := false, removeErr := false,
    alive := fun _ => true, forkOk := true, selTrace := [],
    kills := fun _ => KillRes.delivered }

/-- World for C6's witness: a PID file whose content parses under no
integer syntax. -/
def c6WitnessWorld : World :=
  { pidfile := some "not-a-number", readErr := false, removeErr := false,
    alive := fun _ => true, forkOk := true, selTrace := [],
    kills := fun _ => KillRes.delivered }

/-- World for C7's witness, first branch: stop is a no-op and the
subsequent start succeeds. -/
def c7World : World :=
  { pidfile := none, readErr := false, removeErr := false,
    alive := fun _ => false, forkOk := true, selTrace := [SelEvt.statusReady 0 0 0],
    kills := fun _ => KillRes.delivered }

/-- World for C7's witness, second branch: a running service whose stop
fails with a signal-delivery error. -/
def c7FailWorld : World :=
  { pidfile := some "42", readErr := false, removeErr := false,
    alive := fun _ => true, forkOk := true, selTrace := [],
    kills := fun _ => KillRes.otherError }

/-- World for C8: a running service that survives SIGTERM, so stop
escalates to SIGKILL and succeeds. -/
def c8World : World :=
  { pidfile := some "42", readErr := false, removeErr := false,
    alive := fun _ => true, forkOk := true, selTrace := [],
    kills := fun _ => KillRes.delivered }

/-- World for C9's witness: an already-running service. -/
def c9World : World :=
  { pidfile := some "7", readErr := false, removeErr := false,
    alive := fun _ => true, forkOk := true, selTrace := [],
    kills := fun _ => KillRes.delivered }

/-- World for C10's witness: a present but unreadable PID file. -/
def c10World : World :=
  { pidfile := some "42", readErr := true, removeErr := false,
    alive := fun _ => true, forkOk := true, selTrace := [],
    kills := fun _ => KillRes.delivered }

/-- C1 (code bug in the source): if the detached process writes the
failure StartupOutcome (status byte 1) on the channel, `monitor_daemon`
prints the `[fail]` status line but still executes `return True`, so
`start` returns `exit_success` — not the failure exit code the claim
(and the source's own docstrings for `make_daemon` and `start`)
require. -/
theorem c1_failure_byte_reports_success :
    monitor_daemon [SelEvt.statusReady 1 0 0] = some ([Ev.logStatus false], true) ∧
    (start c1World).map (fun r => (r.events, r.code)) =
      some ([Ev.logAction, Ev.logStatus false], exit_success) ∧
    exit_success ≠ exit_failure := by
  refine ⟨rfl, by decide, by decide⟩

/-- C2 counterexample: the `select` call in `monitor_daemon` is made
without a timeout argument, so when the daemon never writes a
StartupOutcome the launcher-side wait never returns — `monitor_daemon`
is still blocked on the empty event sequence and `start` yields no exit
code at all, contradicting the claimed bounded-timeout failure return. -/
theorem c2_counterexample :
    monitor_daemon [] = none ∧ start c2World = none :=
  ⟨rfl, rfl⟩

/-- C3 counterexample: with every signal delivery raising an `OSError`
other than `No such process`, `stop` returns `exit_failure` but also
calls `remove_pidfile`, deleting the PID file instead of leaving it in
place as the claim states. -/
theorem c3_counterexample :
    c3World.pidfile = some "42" ∧
    (stop 1 c3World).code = exit_failure ∧
    (stop 1 c3World).world.pidfile = none := by
  refine ⟨rfl, by decide, rfl⟩

/-- C4 counterexample: on a stopped service, `restart` performs a full
stop/start cycle and returns `exit_success`, while `reload` (whose body
is `pass`) changes nothing, emits nothing and returns no exit code, so
the default `reload` does not behave like `restart`. -/
theorem c4_counterexample :
    reload c4World = (c4World, [], none) ∧
    (restart 5 c4World).map (fun r => (r.events, r.code)) =
      some ([Ev.logAction, Ev.logStatus false, Ev.logAction, Ev.logStatus true],
        exit_success) := by
  refine ⟨rfl, by decide⟩

/-- C5 counterexample: the `status` verb returns the Debian status code
(`status_stopped` = 3 on a service with no PID file), which is not one
of the three exit codes, and the `reload` verb returns no exit code at
all (`None` in Python). -/
theorem c5_counterexample :
    (status c5World).stat = status_stopped ∧
    ¬ validExit (status c5World).stat ∧
    (reload c5World).2.2 = none := by
  refine ⟨rfl, ?_, rfl⟩
  unfold validExit exit_success exit_no_action exit_failure
  decide

/-- C6 counterexample: the PID-file content `-1` is not a valid positive
integer, yet Python `int` parses it, so `get_pid` proceeds to the
liveness probe; when the probe succeeds (as `os.kill(-1, 0)` does on a
live system) `get_pid` returns status `running` — not
`stopped-with-pidfile` — and leaves the file in place. -/
theorem c6_counterexample :
    pyInt "-1" = some (-1) ∧
    (get_pid c6World Assertion.assert_none).stat = status_running ∧
    (get_pid c6World Assertion.assert_none).stat ≠ status_stopped_with_pidfile ∧
    (get_pid c6World Assertion.assert_none).world.pidfile = some "-1" := by
  refine ⟨by decide, rfl, by decide, rfl⟩

/-- C8 counterexample: a successful `stop` prints the `[ OK ]` status
line (event 4 of the trace) strictly before clearing the PID file
(event 6), so the status line precedes the PID-file mutation it reports
on, contradicting the claimed ordering. -/
theorem c8_counterexample :
    (stop 1 c8World).events =
      [Ev.logAction, Ev.kill 42 Sig.sigterm, Ev.kill 42 Sig.sigkill,
       Ev.logStatus true, Ev.logWarning, Ev.clearPid] ∧
    statusPrecedesClear (stop 1 c8World).events = true ∧
    Ev.clearPid ∈ (stop 1 c8World).events := by
  refine ⟨by decide, by decide, by decide⟩

/-- Skipping a logAction event leaves `statusPrecedesClear` unchanged. -/
theorem spc_logAction (l : List Ev) :
    statusPrecedesClear (Ev.logAction :: l) = statusPrecedesClear l := rfl

/-- Skipping a kill event leaves `statusPrecedesClear` unchanged. -/
theorem spc_kill (p : Int) (s : Sig) (l : List Ev) :
    statusPrecedesClear (Ev.kill p s :: l) = statusPrecedesClear l := rfl

/-- A trace that starts with a status line satisfies
`statusPrecedesClear`. -/
theorem spc_status (b : Bool) (l : List Ev) :
    statusPrecedesClear (Ev.logStatus b :: l) = true := rfl

/-- The empty trace satisfies `statusPrecedesClear`. -/
theorem spc_nil : statusPrecedesClear [] = true := rfl

/-- A prefix consisting only of kill events does not affect
`statusPrecedesClear`. -/
theorem spc_append_kill (t : List Ev) (h : ∀ e ∈ t, ∃ p s, e = Ev.kill p s)
    (l : List Ev) : statusPrecedesClear (t ++ l) = statusPrecedesClear l := by
  induction t with
  | nil => rfl
  | cons e rest ih =>
    obtain ⟨p, s, he⟩ := h e (List.mem_cons_self e rest)
    subst he
    rw [List.cons_append, spc_kill]
    exact ih (fun x hx => h x (List.mem_cons_of_mem _ hx))

/-- Every event emitted by the SIGTERM loop is a kill of the target
pid. -/
theorem sigtermLoop_all_kill (k : Nat → KillRes) (pid : Int) (i n : Nat) :
    ∀ e ∈ (sigtermLoop k pid i n).1, ∃ s, e = Ev.kill pid s := by
  induction n generalizing i with
  | zero => intro e he; simp [sigtermLoop] at he
  | succ m ih =>
    intro e he
    cases hk : k i with
    | delivered =>
      simp only [sigtermLoop, hk, List.mem_cons] at he
      rcases he with he | he
      · exact ⟨Sig.sigterm, he⟩
      · exact ih (i + 1) e he
    | noSuchProcess =>
      simp only [sigtermLoop, hk, List.mem_singleton] at he
      exact ⟨Sig.sigterm, he⟩
    | otherError =>
      simp only [sigtermLoop, hk, List.mem_singleton] at he
      exact ⟨Sig.sigterm, he⟩

/-- Every event of the signalling phase of `stop` is a kill of the
target pid. -/
theorem stopSignals_all_kill (k : Nat → KillRes) (pid : Int) (retry : Nat) :
    ∀ e ∈ (stopSignals k pid retry).events, ∃ s, e = Ev.kill pid s := by
  intro e he
  simp only [stopSignals] at he
  rcases h2 : (sigtermLoop k pid 0 retry).2 with _ | x
  · rw [h2] at he
    cases hk : k retry with
    | delivered =>
      rw [hk] at he
      simp only [List.mem_append, List.mem_singleton] at he
      rcases he with he | he
      · exact sigtermLoop_all_kill k pid 0 retry e he
      · exact ⟨Sig.sigkill, he⟩
    | noSuchProcess =>
      rw [hk] at he
      simp only [List.mem_append, List.mem_singleton] at he
      rcases he with he | he
      · exact sigtermLoop_all_kill k pid 0 retry e he
      · exact ⟨Sig.sigkill, he⟩
    | otherError =>
      rw [hk] at he
      simp only [List.mem_append, List.mem_singleton] at he
      rcases he with he | he
      · exact sigtermLoop_all_kill k pid 0 retry e he
      · exact ⟨Sig.sigkill, he⟩
  · rw [h2] at he
    exact sigtermLoop_all_kill k pid 0 retry e he

/-- With at least one retry, the first signalling event is a SIGTERM to
the target pid. -/
theorem sigtermLoop_head (k : Nat → KillRes) (pid : Int) (i n : Nat) (h : 0 < n) :
    ∃ t, (sigtermLoop k pid i n).1 = Ev.kill pid Sig.sigterm :: t := by
  cases n with
  | zero => exact absurd h (lt_irrefl 0)
  | succ m =>
    cases hk : k i with
    | delivered => exact ⟨(sigtermLoop k pid (i + 1) m).1, by simp [sigtermLoop, hk]⟩
    | noSuchProcess => exact ⟨[], by simp [sigtermLoop, hk]⟩
    | otherError => exact ⟨[], by simp [sigtermLoop, hk]⟩

/-- With at least one retry, the signalling phase contains a SIGTERM to
the target pid. -/
theorem stopSignals_mem_sigterm (k : Nat → KillRes) (pid : Int) (retry : Nat)
    (h : 0 < retry) :
    Ev.kill pid Sig.sigterm ∈ (stopSignals k pid retry).events := by
  obtain ⟨t, ht⟩ := sigtermLoop_head k pid 0 retry h
  simp only [stopSignals]
  rcases h2 : (sigtermLoop k pid 0 retry).2 with _ | x
  · cases hk : k retry <;> simp [ht]
  · simp [ht]

/-- In a resolution with `assert_running`, the emitted events are either
empty (service running) or start with the failed-status line. -/
theorem get_pid_running_events_shape (w : World) :
    (get_pid w Assertion.assert_running).events = [] ∨
      ∃ l, (get_pid w Assertion.assert_running).events = Ev.logStatus false :: l := by
  cases hpf : w.pidfile with
  | none => exact Or.inr ⟨[], by simp [get_pid, hpf, assertRunningEvs]⟩
  | some c =>
    cases hrd : w.readErr with
    | true =>
      exact Or.inr ⟨[Ev.logWarning], by simp [get_pid, hpf, hrd, assertRunningEvs]⟩
    | false =>
      cases hp : pyInt c with
      | none =>
        exact Or.inr ⟨[Ev.logWarning] ++ (remove_pidfile w).2,
          by simp [get_pid, hpf, hrd, hp, assertRunningEvs]⟩
      | some pid =>
        cases hal : w.alive pid with
        | true => exact Or.inl (by simp [get_pid, hpf, hrd, hp, hal])
        | false =>
          exact Or.inr ⟨(remove_pidfile w).2,
            by simp [get_pid, hpf, hrd, hp, hal, assertRunningEvs]⟩

/-- Resolution via `get_pid` only produces the five Debian status codes. -/
theorem get_pid_stat_valid (w : World) (a : Assertion) :
    validStatus (get_pid w a).stat := by
  unfold validStatus
  cases hpf : w.pidfile with
  | none =>
    have h : (get_pid w a).stat = status_stopped := by simp [get_pid, hpf]
    rw [h]
    decide
  | some c =>
    cases hrd : w.readErr with
    | true =>
      have h : (get_pid w a).stat = status_unknown := by simp [get_pid, hpf, hrd]
      rw [h]
      decide
    | false =>
      cases hp : pyInt c with
      | none =>
        have h : (get_pid w a).stat = status_stopped_with_pidfile := by
          simp [get_pid, hpf, hrd, hp]
        rw [h]
        decide
      | some pid =>
        cases hal : w.alive pid with
        | true =>
          have h : (get_pid w a).stat = status_running := by simp [get_pid, hpf, hrd, hp, hal]
          rw [h]
          decide
        | false =>
          have h : (get_pid w a).stat = status_stopped := by simp [get_pid, hpf, hrd, hp, hal]
          rw [h]
          decide

/-- The stop verb only produces the three Debian exit codes. -/
theorem stop_code_valid (retry : Nat) (w : World) : validExit (stop retry w).code := by
  unfold validExit
  simp only [stop]
  split
  · exact Or.inr (Or.inl rfl)
  · split
    · exact Or.inr (Or.inr rfl)
    · exact Or.inl rfl

/-- The start verb, when it returns, only produces the three exit codes. -/
theorem start_code_valid (w : World) : validExitOpt (start w) := by
  simp only [start]
  split
  · exact Or.inr (Or.inl rfl)
  · cases hm : make_daemon (get_pid w Assertion.assert_stopped).world with
    | none => trivial
    | some p =>
      obtain ⟨t, b⟩ := p
      cases b
      · exact Or.inr (Or.inr rfl)
      · exact Or.inl rfl

/-- The restart verb, when it returns, only produces the three exit codes. -/
theorem restart_code_valid (retry : Nat) (w : World) : validExitOpt (restart retry w) := by
  unfold restart
  split
  · cases hs : start (stop retry w).world with
    | none => trivial
    | some r =>
      have h := start_code_valid (stop retry w).world
      rw [hs] at h
      exact h
  · exact Or.inr (Or.inr rfl)

/-- The try-restart verb, when it returns, only produces the three exit codes. -/
theorem try_restart_code_valid (retry : Nat) (w : World) :
    validExitOpt (try_restart retry w) := by
  unfold try_restart
  split
  · exact Or.inr (Or.inl rfl)
  · cases hs : restart retry (get_pid w Assertion.assert_none).world with
    | none => trivial
    | some r =>
      have h := restart_code_valid retry (get_pid w Assertion.assert_none).world
      rw [hs] at h
      exact h

/-- C2 (amended): the launcher-side wait carries no timeout at all:
`monitor_daemon` returns only when a pipe error or the status byte
arrives, and on any sequence of mere wakeups it is still blocked, so
there is no bound after which `start` returns a timeout failure. -/
theorem c2_wait_blocks_without_outcome :
    ∀ tr : List SelEvt, (∀ e ∈ tr, e = SelEvt.wake) → monitor_daemon tr = none := by
  intro tr
  induction tr with
  | nil => intro h; rfl
  | cons e rest ih =>
    intro h
    have he : e = SelEvt.wake := h e (List.mem_cons_self e rest)
    subst he
    exact ih (fun x hx => h x (List.mem_cons_of_mem _ hx))

/-- C2 witness: a launcher woken twice with no status byte is still
blocked. -/
theorem c2_wait_blocks_without_outcome_witness :
    monitor_daemon [SelEvt.wake, SelEvt.wake] = none :=
  c2_wait_blocks_without_outcome [SelEvt.wake, SelEvt.wake] (by decide)

/-- C3 (amended): when a signal delivery raises an error other than
`No such process`, `stop` returns the failure exit code but does not
leave the PID file in place: it calls `remove_pidfile`, deleting the
file whenever the deletion itself succeeds. -/
theorem c3_signal_error_fails_and_removes_pidfile (w : World) (retry : Nat) (s : String)
    (pid : Int) (hpf : w.pidfile = some s) (hrd : w.readErr = false)
    (hp : pyInt s = some pid) (hal : w.alive pid = true) (hrm : w.removeErr = false)
    (hexc : (stopSignals w.kills pid retry).exc = some KillRes.otherError) :
    (stop retry w).code = exit_failure ∧
    (stop retry w).world.pidfile = none ∧
    Ev.logFailure ∈ (stop retry w).events := by
  have hg : get_pid w Assertion.assert_running =
      { world := w, events := [], pid := pid, stat := status_running } := by
    simp [get_pid, hpf, hrd, hp, hal]
  refine ⟨?_, ?_, ?_⟩
  · simp [stop, hg, hexc, remove_pidfile, hpf, hrm]
  · simp [stop, hg, hexc, remove_pidfile, hpf, hrm]
  · simp [stop, hg, hexc, remove_pidfile, hpf, hrm]

/-- C3 witness: a running service whose signal deliveries fail with a
non-`No such process` error. -/
theorem c3_signal_error_fails_and_removes_pidfile_witness :
    (stop 1 c3World).code = exit_failure ∧
    (stop 1 c3World).world.pidfile = none ∧
    Ev.logFailure ∈ (stop 1 c3World).events :=
  c3_signal_error_fails_and_removes_pidfile c3World 1 "42" 42 rfl rfl (by decide) rfl rfl
    (by decide)

/-- C4 (amended): `force_reload` behaves identically to `restart`, but
the default `reload` is a no-op that changes no state, emits no events
and returns no exit code. -/
theorem c4_force_reload_is_restart_and_reload_is_noop (retry : Nat) (w : World) :
    force_reload retry w = restart retry w ∧ reload w = (w, [], none) :=
  ⟨rfl, rfl⟩

/-- C5 (amended): start, stop, restart, try-restart and force-reload
return one of the three exit codes whenever they return; the default
reload returns no exit code at all, and status returns one of the five
Debian status codes rather than an exit code. -/
theorem c5_exit_codes (retry : Nat) (w : World) :
    validExit (stop retry w).code ∧
    validExitOpt (start w) ∧
    validExitOpt (restart retry w) ∧
    validExitOpt (try_restart retry w) ∧
    validExitOpt (force_reload retry w) ∧
    (reload w).2.2 = none ∧
    validStatus (status w).stat :=
  ⟨stop_code_valid retry w, start_code_valid w, restart_code_valid retry w,
   try_restart_code_valid retry w, restart_code_valid retry w, rfl,
   get_pid_stat_valid w Assertion.assert_none⟩

/-- C6 (amended): for every PID-file content on which Python integer
parsing fails (`int` raises `ValueError`), `get_pid` logs a warning,
removes the file (when the removal itself succeeds) and returns
`(-1, stopped-with-pidfile)`; contents such as `"-1"` that parse as
non-positive integers instead reach the liveness probe. -/
theorem c6_unparsable_content_removes_pidfile (w : World) (a : Assertion) (s : String)
    (hpf : w.pidfile = some s) (hrd : w.readErr = false) (hp : pyInt s = none)
    (hrm : w.removeErr = false) :
    (get_pid w a).pid = -1 ∧
    (get_pid w a).stat = status_stopped_with_pidfile ∧
    (get_pid w a).world.pidfile = none ∧
    Ev.logWarning ∈ (get_pid w a).events := by
  refine ⟨?_, ?_, ?_, ?_⟩ <;> simp [get_pid, hpf, hrd, hp, remove_pidfile, hrm]

/-- C6 witness: the unparsable content `not-a-number`. -/
theorem c6_unparsable_content_removes_pidfile_witness :
    (get_pid c6WitnessWorld Assertion.assert_none).pid = -1 ∧
    (get_pid c6WitnessWorld Assertion.assert_none).stat = status_stopped_with_pidfile ∧
    (get_pid c6WitnessWorld Assertion.assert_none).world.pidfile = none ∧
    Ev.logWarning ∈ (get_pid c6WitnessWorld Assertion.assert_none).events :=
  c6_unparsable_content_removes_pidfile c6WitnessWorld Assertion.assert_none
    "not-a-number" rfl rfl (by decide) rfl

/-- C7: `restart` equals the composition of `stop` followed by `start`
(world, trace and exit code compose exactly) whenever `stop` returns
success or no-action, and when `stop` returns failure, `restart`
returns failure with exactly the world and trace `stop` produced — so
`start` is not invoked at all. -/
theorem c7_restart_is_stop_then_start (retry : Nat) (w : World) :
    ((stop retry w).code = exit_success ∨ (stop retry w).code = exit_no_action →
      restart retry w = (start (stop retry w).world).map (fun r =>
        { world := r.world, events := (stop retry w).events ++ r.events,
          code := r.code })) ∧
    ((stop retry w).code = exit_failure →
      restart retry w =
        some { world := (stop retry w).world, events := (stop retry w).events,
               code := exit_failure }) := by
  constructor
  · intro h
    unfold restart
    rw [if_pos h]
  · intro h
    unfold restart
    rw [if_neg (by rw [h]; decide)]

/-- C7 witness: both branches at concrete worlds — a no-action stop
followed by a successful start, and a failing stop that short-circuits. -/
theorem c7_restart_is_stop_then_start_witness :
    (restart 5 c7World = (start (stop 5 c7World).world).map (fun r =>
      { world := r.world, events := (stop 5 c7World).events ++ r.events,
        code := r.code })) ∧
    (restart 1 c7FailWorld =
      some { world := (stop 1 c7FailWorld).world, events := (stop 1 c7FailWorld).events,
             code := exit_failure }) :=
  ⟨(c7_restart_is_stop_then_start 5 c7World).1 (Or.inr (by decide)),
   (c7_restart_is_stop_then_start 1 c7FailWorld).2 (by decide)⟩

/-- C8 (amended): the claimed order is reversed for the stop verb: in
every execution of `stop`, no PID-file clear occurs before the first
status line of the trace — the status line is emitted before the
PID-file clear it reports on. -/
theorem c8_status_line_precedes_pidfile_clear (retry : Nat) (w : World) :
    statusPrecedesClear (stop retry w).events = true := by
  have hk : ∀ e ∈ (stopSignals (get_pid w Assertion.assert_running).world.kills
      (get_pid w Assertion.assert_running).pid retry).events, ∃ p s, e = Ev.kill p s := by
    intro e he
    obtain ⟨s', hs⟩ := stopSignals_all_kill _ _ _ e he
    exact ⟨_, s', hs⟩
  simp only [stop]
  split
  · rcases get_pid_running_events_shape w with h | ⟨l, h⟩ <;>
      rw [h] <;>
      simp only [spc_nil, spc_logAction, spc_status]
  · split <;>
      rcases get_pid_running_events_shape w with h | ⟨l, h⟩ <;>
      rw [h] <;>
      simp only [List.nil_append, List.cons_append, List.append_assoc, spc_logAction,
        spc_status, spc_append_kill _ hk, spc_nil]

/-- C9: starting an already-running service (PID file present, parsable
and the recorded process alive) returns `exit_no_action` and leaves the
world — in particular the PID file and its content — exactly
unchanged. -/
theorem c9_start_on_running_service_no_action (w : World) (s : String) (pid : Int)
    (hpf : w.pidfile = some s) (hrd : w.readErr = false)
    (hp : pyInt s = some pid) (hal : w.alive pid = true) :
    start w = some { world := w, events := [Ev.logAction, Ev.logStatus false],
                     code := exit_no_action } := by
  have hg : get_pid w Assertion.assert_stopped =
      { world := w, events := [Ev.logStatus false], pid := pid, stat := status_running } := by
    simp [get_pid, hpf, hrd, hp, hal]
  simp [start, hg]

/-- C9 witness: a running service with PID file content `7`. -/
theorem c9_start_on_running_service_no_action_witness :
    start c9World =
      some { world := c9World, events := [Ev.logAction, Ev.logStatus false],
             code := exit_no_action } :=
  c9_start_on_running_service_no_action c9World "7" 7 rfl rfl (by decide) rfl

/-- C10: when reading the PID file raises an I/O error, `get_pid`
returns pid -1 with status unknown; `stop` then passes its no-action
guard (it cannot return `exit_no_action`) and sends its first
termination signal with pid argument -1. -/
theorem c10_read_error_signals_pid_minus_one (w : World) (retry : Nat) (s : String)
    (hpf : w.pidfile = some s) (hrd : w.readErr = true) (hr : 0 < retry) :
    (get_pid w Assertion.assert_running).pid = -1 ∧
    (get_pid w Assertion.assert_running).stat = status_unknown ∧
    (stop retry w).code ≠ exit_no_action ∧
    Ev.kill (-1) Sig.sigterm ∈ (stop retry w).events := by
  have hg : get_pid w Assertion.assert_running =
      { world := w, events := [Ev.logStatus false, Ev.logWarning], pid := -1,
        stat := status_unknown } := by
    simp [get_pid, hpf, hrd, assertRunningEvs]
  have hm := stopSignals_mem_sigterm w.kills (-1) retry hr
  refine ⟨by rw [hg], by rw [hg], ?_, ?_⟩
  · simp only [stop, hg]
    rw [if_neg (by simp [status_running, status_unknown])]
    split
    · simp [exit_failure, exit_no_action]
    · simp [exit_success, exit_no_action]
  · simp only [stop, hg]
    rw [if_neg (by simp [status_running, status_unknown])]
    split
    · simp [List.mem_append, hm]
    · simp [List.mem_append, hm]

/-- C10 witness: an unreadable PID file with the default retry count. -/
theorem c10_read_error_signals_pid_minus_one_witness :
    (get_pid c10World Assertion.assert_running).pid = -1 ∧
    (get_pid c10World Assertion.assert_running).stat = status_unknown ∧
    (stop 5 c10World).code ≠ exit_no_action ∧
    Ev.kill (-1) Sig.sigterm ∈ (stop 5 c10World).events :=
  c10_read_error_signals_pid_minus_one c10World 5 "42" rfl rfl (by decide)

end SystemV
